import Mathlib

/-!
Verification of the event-registration front end (SaaScraft `aig_user`).

The development shallowly embeds the parts of the TypeScript source the
claims depend on:

* `app/utils/fileValidation.ts` — `validateFileUpload`;
* `components/registrations/myRegistration/Step1BasicDetails.tsx` —
  `createDynamicSchema` (rule synthesis) and the `onSubmit` normalizer;
* the `Step4ConfirmPay` submit handlers (two variants in the source tree);
* the `Step1BasicDetails` variant's `onSubmit` normalizer;
* `app/store/useRegistrationStore.ts` — store state, `resetForm`,
  `updateDynamicFormAnswer`;
* `app/(section)/registration/payment/page.tsx` — `handlePay` widget
  options and the payment-verification callback.

JavaScript truthiness is modelled explicitly where the source relies on it
(`x || d`, `if (x)` on numbers/strings/options).
-/

/-- JS truthiness for an optional number: `undefined` and `0` are falsy. -/
def truthyNat : Option Nat → Bool
  | none => false
  | some n => n ≠ 0

/-- JS truthiness for an optional string: `undefined` and `""` are falsy. -/
def truthyStr : Option String → Bool
  | none => false
  | some s => s ≠ ""

/-- JS `x || d` on an optional number (`0` falls through to the default). -/
def jsOrNat (x : Option Nat) (d : Nat) : Nat :=
  match x with
  | some n => if n = 0 then d else n
  | none => d

/-- JS `x || d` on an optional string (`""` falls through to the default). -/
def jsOrStr (x : Option String) (d : String) : String :=
  match x with
  | some s => if s = "" then d else s
  | none => d

/-- JS `s || d` on a plain string (`""` falls through to the default). -/
def jsOrStr1 (s d : String) : String :=
  if s = "" then d else s

/-- A browser `File` handle, reduced to the data the code inspects. -/
structure FileHandle where
  name : String
  size : Nat
deriving DecidableEq, Repr

/-- Drop the first `'.'` of a character list, as JS `replace(".", "")`
replaces only the first occurrence. -/
def dropFirstDot : List Char → List Char
  | [] => []
  | c :: cs => if c = '.' then cs else c :: dropFirstDot cs

/-- JS `str.replace(".", "")`: remove the first dot only. -/
def jsReplaceDotOnce (s : String) : String :=
  ⟨dropFirstDot s.data⟩

/-- Split a character list at every occurrence of `c` (JS
`split`-with-single-character semantics: the result is never empty, and
separators at the ends produce empty pieces). -/
def splitOnCharAux (c : Char) : List Char → List (List Char)
  | [] => [[]]
  | x :: xs =>
    let rest := splitOnCharAux c xs
    if x = c then [] :: rest
    else
      match rest with
      | [] => [[x]]
      | r :: rs => (x :: r) :: rs

/-- JS `str.split(c)` for a one-character separator. -/
def jsSplitOnChar (c : Char) (s : String) : List String :=
  (splitOnCharAux c s.data).map (fun l => String.mk l)

/-- JS `str.toLowerCase()` (character-wise). -/
def jsToLower (s : String) : String :=
  ⟨s.data.map Char.toLower⟩

/-- JS `str.trim()`: strip leading and trailing whitespace. -/
def jsTrim (s : String) : String :=
  ⟨((s.data.dropWhile Char.isWhitespace).reverse.dropWhile
      Char.isWhitespace).reverse⟩

/-- JS `str.split(".").pop()`: the part after the last dot, the whole
string when it has no dot (`split` never yields an empty array). -/
def jsSplitPop (s : String) : String :=
  (jsSplitOnChar '.' s).getLastD ""

/-- Result shape of `validateFileUpload`. -/
structure ValidationResult where
  valid : Bool
  error : Option String
deriving DecidableEq, Repr

/-- The extension branch of `validateFileUpload`
(`app/utils/fileValidation.ts`, lines 19–34). -/
def validateExtension (file : FileHandle) (allowedExtensions : Option String) :
    ValidationResult :=
  match allowedExtensions with
  | some s =>
    if s = "" then ⟨true, none⟩
    else
      let extensions := (jsSplitOnChar ',' s).map
        (fun e => jsReplaceDotOnce (jsToLower (jsTrim e)))
      let fileExtension := jsToLower (jsSplitPop file.name)
      if fileExtension = "" ∨ ¬ extensions.contains fileExtension then
        ⟨false, some ("File type not allowed. Allowed: " ++ s)⟩
      else ⟨true, none⟩
  | none => ⟨true, none⟩

/-- `validateFileUpload` (`app/utils/fileValidation.ts`, lines 2–35):
size check first (skipped when `maxSizeMB` is absent or `0`, both falsy in
JS), then the extension check. -/
def validateFileUpload (file : FileHandle) (allowedExtensions : Option String)
    (maxSizeMB : Option Nat) : ValidationResult :=
  match maxSizeMB with
  | some m =>
    if m = 0 then validateExtension file allowedExtensions
    else if file.size > m * 1024 * 1024 then
      ⟨false, some ("File size exceeds " ++ toString m ++ "MB limit")⟩
    else validateExtension file allowedExtensions
  | none => validateExtension file allowedExtensions

/-- The claim's reading of the extension: the substring of the file name
after its final dot, defined only when the name contains a dot. -/
def claimedExtension (name : String) : Option String :=
  if name.data.contains '.' then some ((jsSplitOnChar '.' name).getLastD "")
  else none

/-- Validity predicate as claim C10 words it: size bound (absent or zero
`maxSizeMB` passes), and the lowercased substring after the final dot must
occur in the comma-split, trimmed, lowercased, dot-stripped list. -/
def claimedFileValid (file : FileHandle) (allowedExtensions : Option String)
    (maxSizeMB : Option Nat) : Bool :=
  (match maxSizeMB with
    | none => true
    | some m => decide (m = 0) || decide (file.size ≤ m * 1024 * 1024)) &&
  (match allowedExtensions with
    | none => true
    | some s =>
      match claimedExtension file.name with
      | some e =>
        ((jsSplitOnChar ',' s).map
          (fun x => jsReplaceDotOnce (jsToLower (jsTrim x)))).contains (jsToLower e)
      | none => false)

/-- Validity predicate matching the code: the extension is the last
dot-separated component of the name (the whole name when it has no dot),
must be nonempty, and `allowedExtensions` is also skipped when empty. -/
def codeFileValid (file : FileHandle) (allowedExtensions : Option String)
    (maxSizeMB : Option Nat) : Bool :=
  (match maxSizeMB with
    | none => true
    | some m => decide (m = 0) || decide (file.size ≤ m * 1024 * 1024)) &&
  (match allowedExtensions with
    | none => true
    | some s =>
      decide (s = "") ||
      (let e := jsToLower (jsSplitPop file.name)
       decide (e ≠ "") &&
         ((jsSplitOnChar ',' s).map
           (fun x => jsReplaceDotOnce (jsToLower (jsTrim x)))).contains e))

/-! ## Data model (useRegistrationStore.ts, first variant) -/

/-- A value flowing through form state: a string, an array of strings, a
file handle, or `undefined`/`null` (collapsed: the code only tests their
truthiness and `typeof`). -/
inductive AnswerValue
  | str (s : String)
  | arr (xs : List String)
  | fileV (f : FileHandle)
  | undef
deriving DecidableEq, Repr

/-- JS truthiness of an answer value (arrays are truthy even when empty). -/
def truthyVal : AnswerValue → Bool
  | .str s => s ≠ ""
  | .arr _ => true
  | .fileV _ => true
  | .undef => false

/-- `AdditionalField` of a registration category. -/
structure AdditionalField where
  id : Nat
  type : String
  label : String
deriving DecidableEq, Repr

/-- `RegistrationCategory` (a priced slab). `catId` embeds the `_id`. -/
structure RegistrationCategory where
  catId : String
  slabName : String
  amount : Nat
  needAdditionalInfo : Option Bool
  additionalFields : Option (List AdditionalField)
deriving DecidableEq, Repr

/-- `DynamicFormField`: an event-level server-defined field. -/
structure DynamicFormField where
  id : String
  type : String
  label : String
  inputTypes : Option String
  required : Bool
  maxFileSize : Option Nat
  fileUploadTypes : Option String
  options : Option (List String)
  minSelected : Option Nat
  maxSelected : Option Nat
deriving DecidableEq, Repr

/-- `DynamicFormAnswer` as stored (`fileUrl : none` models both `null`
and an absent key; optional metadata mirrors the interface). -/
structure DynamicFormAnswer where
  id : String
  label : String
  type : String
  required : Bool
  value : AnswerValue
  fileUrl : Option String
  inputTypes : Option String
  options : Option (List String)
  minSelected : Option Nat
  maxSelected : Option Nat
deriving DecidableEq, Repr

/-- `BasicDetails`. Optional text fields are modelled as `String` with
`""` for absent, matching how the code reads them (`x || ""`). Record maps
are association lists keyed by field id. -/
structure BasicDetails where
  eventId : String
  eventName : String
  prefixField : String
  fullName : String
  email : String
  phone : String
  affiliation : String
  designation : String
  medicalCouncilRegistration : String
  medicalCouncilState : String
  address : String
  country : String
  state : String
  city : String
  pincode : String
  mealPreference : String
  gender : String
  acceptedTerms : Option Bool
  registrationCategory : Option RegistrationCategory
  additionalAnswers : List (String × AnswerValue)
  fileUploads : List (String × FileHandle)
  dynamicFormAnswers : List DynamicFormAnswer
  dynamicFormFileUploads : List (String × FileHandle)
  registrationId : String
deriving DecidableEq, Repr

/-- `AccompanyingPerson`. -/
structure AccompanyingPerson where
  name : String
  age : String
  gender : String
  relation : String
  mealPreference : String
deriving DecidableEq, Repr

/-- `BadgeInfo`. -/
structure BadgeInfo where
  qrCodeUrl : String
  name : String
  registrationId : String
  category : String
  workshop : Option String
deriving DecidableEq, Repr

/-- The Zustand store state (`RegistrationState`). -/
structure RegistrationState where
  currentStep : Nat
  basicDetails : BasicDetails
  dynamicFormFields : List DynamicFormField
  accompanyingPersons : List AccompanyingPerson
  selectedWorkshops : List String
  badgeInfo : Option BadgeInfo
  skippedAccompanying : Bool
  skippedWorkshops : Bool
deriving DecidableEq, Repr

/-- `initialBasicDetails` (useRegistrationStore.ts, lines 159–183):
every text field `""` except `country = "India"`, empty collections,
`registrationCategory` left undefined. -/
def initialBasicDetails : BasicDetails where
  eventId := ""
  eventName := ""
  prefixField := ""
  fullName := ""
  email := ""
  phone := ""
  affiliation := ""
  designation := ""
  medicalCouncilRegistration := ""
  medicalCouncilState := ""
  address := ""
  country := "India"
  state := ""
  city := ""
  pincode := ""
  mealPreference := ""
  gender := ""
  acceptedTerms := none
  registrationCategory := none
  additionalAnswers := []
  fileUploads := []
  dynamicFormAnswers := []
  dynamicFormFileUploads := []
  registrationId := ""

/-- The store's creation-time state (lines 186–193). -/
def initialRegistrationState : RegistrationState where
  currentStep := 1
  basicDetails := initialBasicDetails
  dynamicFormFields := []
  accompanyingPersons := []
  selectedWorkshops := []
  badgeInfo := none
  skippedAccompanying := false
  skippedWorkshops := false

/-- `resetForm` (lines 304–314): `set` with the initial value of every
component, so the prior state is discarded wholesale. -/
def resetForm (_s : RegistrationState) : RegistrationState :=
  initialRegistrationState

/-- The in-place update of the first answer matching `id`
(`updateDynamicFormAnswer`, existing-index branch, lines 215–221): spread
the old answer, overwrite `value`, and overwrite `fileUrl` only when the
`fileUrl` argument was passed. -/
def updateFirstAnswer (id : String) (value : AnswerValue) (fileUrl : Option String) :
    List DynamicFormAnswer → List DynamicFormAnswer
  | [] => []
  | a :: rest =>
    if a.id = id then
      { a with
        value := value
        fileUrl := match fileUrl with | some u => some u | none => a.fileUrl } :: rest
    else a :: updateFirstAnswer id value fileUrl rest

/-- `updateDynamicFormAnswer` (useRegistrationStore.ts, lines 206–257).
When no answer with this id exists and no field definition matches, the
state is returned unchanged. A new answer copies the field's metadata;
`fileUrl || null` sends `""` to `null`. -/
def updateDynamicFormAnswer (s : RegistrationState) (id : String)
    (value : AnswerValue) (fileUrl : Option String) : RegistrationState :=
  let existingAnswers := s.basicDetails.dynamicFormAnswers
  if existingAnswers.any (fun a => a.id = id) then
    { s with basicDetails :=
        { s.basicDetails with
          dynamicFormAnswers := updateFirstAnswer id value fileUrl existingAnswers } }
  else
    match s.dynamicFormFields.find? (fun f => f.id = id) with
    | none => s
    | some field =>
      let newAnswer : DynamicFormAnswer :=
        { id := id
          label := field.label
          type := field.type
          required := field.required
          value := value
          fileUrl := match fileUrl with
            | some u => if u = "" then none else some u
            | none => none
          inputTypes := if field.type = "input" then field.inputTypes else none
          options := field.options
          minSelected := field.minSelected
          maxSelected := field.maxSelected }
      { s with basicDetails :=
          { s.basicDetails with
            dynamicFormAnswers := existingAnswers ++ [newAnswer] } }

/-! ## Schema synthesizer (Step1BasicDetails.tsx, createDynamicSchema) -/

/-- The validation-rule shapes produced by `createDynamicSchema` for
category-additional and dynamic fields. -/
inductive Rule
  | requiredString (msg : String)
  | optionalString
  | anyOptional
  | requiredFileRule (msg : String)
  | checkboxRule (minSel : Nat) (minMsg : String) (maxSel : Option (Nat × String))
deriving DecidableEq, Repr

/-- Run a rule on a value, zod-style: `none` means the value passes,
`some msg` is the rejection message. Type mismatches are rejected with
zod's generic invalid-type message. -/
def checkRule : Rule → AnswerValue → Option String
  | .requiredString msg, .str s => if 1 ≤ s.length then none else some msg
  | .requiredString _, _ => some "Invalid input"
  | .optionalString, .str _ => none
  | .optionalString, .undef => none
  | .optionalString, _ => some "Invalid input"
  | .anyOptional, _ => none
  | .requiredFileRule msg, v =>
    (match v with | .fileV _ => none | _ => some msg)
  | .checkboxRule minSel minMsg maxSel, .arr xs =>
    if xs.length < minSel then some minMsg
    else
      match maxSel with
      | some (mx, mxMsg) => if mx < xs.length then some mxMsg else none
      | none => none
  | .checkboxRule _ _ _, _ => some "Invalid input"

/-- Rule synthesis for one category-additional field
(Step1BasicDetails.tsx, lines 97–115): `textbox`/`date`/`radio` demand a
nonempty string, `checkbox` an array of at least one string, `upload` is
`z.any().optional()`, and any other type falls back to
`z.string().optional()`. -/
def additionalFieldRule (field : AdditionalField) : Rule :=
  match field.type with
  | "textbox" => .requiredString (field.label ++ " is required")
  | "date" => .requiredString (field.label ++ " is required")
  | "radio" => .requiredString (field.label ++ " is required")
  | "checkbox" =>
    .checkboxRule 1 ("Please select at least one option for " ++ field.label) none
  | "upload" => .anyOptional
  | _ => .optionalString

/-- Rule synthesis for one dynamic field (Step1BasicDetails.tsx, lines
120–174). Required `input` fields of `inputTypes = "file"` get the
File-instance refinement; required `checkbox` fields get the array bounds
(`minSelected || 1`, `max` added only when `maxSelected` is truthy); every
other required type — the recognized ones and the unrecognized alike —
gets `z.string().min(1)`. Optional fields get `z.any().optional()`. -/
def dynamicFieldRule (field : DynamicFormField) : Rule :=
  if field.required then
    match field.type with
    | "input" =>
      if field.inputTypes = some "file" then
        .requiredFileRule (field.label ++ " is required")
      else
        .requiredString (field.label ++ " is required")
    | "checkbox" =>
      .checkboxRule (jsOrNat field.minSelected 1)
        ("Please select at least " ++ toString (jsOrNat field.minSelected 1) ++
          " option(s) for " ++ field.label)
        (match field.maxSelected with
          | some mx =>
            if mx = 0 then none
            else some (mx, "Maximum " ++ toString mx ++ " selections allowed for " ++
              field.label)
          | none => none)
    | _ => .requiredString (field.label ++ " is required")
  else .anyOptional

/-- The per-field portion of `createDynamicSchema` (lines 92–176): one
rule per category-additional field (only when `needAdditionalInfo` and a
nonempty `additionalFields` list are present) followed by one rule per
dynamic field. The fixed profile-field rules (lines 64–90) are static and
not involved in any claim, so they are not repeated here; the synthesis is
a total function — no descriptor makes it throw. -/
def createDynamicSchema (category : Option RegistrationCategory)
    (dynamicFormFields : List DynamicFormField) : List (String × Rule) :=
  (match category with
    | some c =>
      if c.needAdditionalInfo = some true &&
          (match c.additionalFields with | some l => !l.isEmpty | none => false) then
        (c.additionalFields.getD []).map
          (fun f => ("additional_" ++ toString f.id, additionalFieldRule f))
      else []
    | none => []) ++
  dynamicFormFields.map (fun f => ("dynamic_" ++ f.id, dynamicFieldRule f))

/-! ## Checkbox normalizers (claim C2's three code sites) -/

/-- Step1BasicDetails.tsx, line 356 (`onSubmit`, dynamic checkbox):
`Array.isArray(value) ? value : value || []` — a truthy non-array passes
through unchanged. -/
def step1CheckboxNorm (value : AnswerValue) : AnswerValue :=
  match value with
  | .arr xs => .arr xs
  | v => if truthyVal v then v else .arr []

/-- part_005 (Step4ConfirmPay variant), lines 131–134 (category-additional
checkbox): coerce non-arrays to `[]`, then `join(", ")` — the sent value
is always a single string. -/
def part005CheckboxNorm (fieldValue : AnswerValue) : AnswerValue :=
  let value := match fieldValue with | .arr xs => xs | _ => []
  .str (String.intercalate ", " value)

/-- part_004 (Step4ConfirmPay), lines 127–130 (dynamic checkbox):
`Array.isArray(v) ? v : [v].filter(Boolean)` — arrays pass, a truthy
string becomes a one-element array, falsy values become `[]`. Non-string
truthy scalars cannot reach this branch with a string payload, so the
filter is modelled on the string content. -/
def part004CheckboxNorm (value : AnswerValue) : AnswerValue :=
  match value with
  | .arr xs => .arr xs
  | .str s => .arr (if s = "" then [] else [s])
  | .fileV _ => .arr []
  | .undef => .arr []

/-! ## Answer payload shapes and helpers shared by the submit handlers -/

/-- A JSON value appearing in a serialized answer record. -/
inductive JsonVal
  | s (v : String)
  | arr (xs : List String)
  | nullJ
deriving DecidableEq, Repr

/-- JS `v || ""` serialized to JSON: truthy values pass through, falsy
ones become `""` (a `File` cannot survive `JSON.stringify` and never
reaches these text branches in the traced flow). -/
def jsValOrEmpty : Option AnswerValue → JsonVal
  | some (.str v) => if v = "" then .s "" else .s v
  | some (.arr xs) => .arr xs
  | some (.fileV _) => .s ""
  | some .undef => .s ""
  | none => .s ""

/-- Serialize a truthy answer value as JSON. -/
def jsonOfVal : AnswerValue → JsonVal
  | .str v => .s v
  | .arr xs => .arr xs
  | .fileV _ => .s ""
  | .undef => .nullJ

/-- JS object insertion: overwrite in place when the key exists, append
otherwise. -/
def objUpsert {α : Type} (l : List (String × α)) (k : String) (v : α) :
    List (String × α) :=
  if l.any (fun p => p.1 = k) then
    l.map (fun p => if p.1 = k then (k, v) else p)
  else l ++ [(k, v)]

/-- A serialized dynamic-form answer as part_004 builds it. `none` in
`value`/`fileUrl` models a deleted/absent key. -/
structure DynAnswerOut where
  id : String
  label : String
  type : String
  required : Bool
  value : Option JsonVal
  fileUrl : Option JsonVal
  inputTypes : Option String
  options : Option (List String)
deriving DecidableEq, Repr

/-- A serialized category-additional answer (part_004 shape, `value` and
`fileUrl` always present). -/
structure AddAnswerOut where
  id : Nat
  label : String
  type : String
  value : JsonVal
  fileUrl : JsonVal
deriving DecidableEq, Repr

/-- The file-kind test used by part_004 and part_007:
`type === "file" || (type === "input" && inputTypes === "file")`. -/
def isFileKind (type : String) (inputTypes : Option String) : Bool :=
  type = "file" || (type = "input" && inputTypes = some "file")

/-! ## part_004 — `Step4ConfirmPay.handleSubmit` (the variant with dynamic
form answers and the `file_dyn_` prefix) -/

/-- part_004, lines 94–145: serialize one stored dynamic answer. A live
file moves into the upload map with `value`/`fileUrl` deleted from the
JSON record; a nonempty string value (a previously uploaded file's URL) is
kept as both `value` and `fileUrl`; a file field with neither gets both
keys deleted — the record is still sent. `inputTypes` is copied only for
non-file fields, `options` whenever present. -/
def part004DynAnswer (uploads : List (String × FileHandle))
    (a : DynamicFormAnswer) : DynAnswerOut × Option (String × FileHandle) :=
  let isFileField := isFileKind a.type a.inputTypes
  let base : DynAnswerOut :=
    { id := a.id, label := a.label, type := a.type, required := a.required
      value := none, fileUrl := none, inputTypes := none, options := none }
  let (core, fileEntry) :=
    if isFileField then
      match uploads.lookup a.id with
      | some f => (base, some (a.id, f))
      | none =>
        match a.value with
        | .str v =>
          if v = "" then (base, none)
          else ({ base with value := some (.s v), fileUrl := some (.s v) }, none)
        | _ => (base, none)
    else if a.type = "checkbox" then
      ({ base with value := some (jsonOfVal (part004CheckboxNorm a.value)) }, none)
    else
      ({ base with value := some (jsValOrEmpty (some a.value)) }, none)
  let withInput :=
    if truthyStr a.inputTypes && !isFileField then
      { core with inputTypes := a.inputTypes }
    else core
  let withOpts :=
    match a.options with
    | some os => { withInput with options := some os }
    | none => withInput
  (withOpts, fileEntry)

/-- part_004, lines 172–212: serialize one category-additional field.
An `upload` field sends a `file_<id>` part when a live file is held,
echoes a truthy string value as `value` and `fileUrl` when editing, and
otherwise sends empty strings — it never aborts. -/
def part004AddAnswer (answers : List (String × AnswerValue))
    (uploadsMap : List (String × FileHandle)) (field : AdditionalField) :
    AddAnswerOut × Option (String × FileHandle) :=
  let fieldValue := answers.lookup (toString field.id)
  let file := uploadsMap.lookup (toString field.id)
  let base : AddAnswerOut :=
    { id := field.id, label := field.label, type := field.type
      value := .s "", fileUrl := .nullJ }
  if field.type = "upload" then
    match file with
    | some f =>
      ({ base with value := .s "", fileUrl := .s "" },
        some ("file_" ++ toString field.id, f))
    | none =>
      match fieldValue with
      | some (.str v) =>
        if v = "" then ({ base with value := .s "", fileUrl := .s "" }, none)
        else ({ base with value := .s v, fileUrl := .s v }, none)
      | _ => ({ base with value := .s "", fileUrl := .s "" }, none)
  else if field.type = "checkbox" then
    ({ base with value := jsValOrEmpty fieldValue }, none)
  else
    ({ base with value := jsValOrEmpty fieldValue }, none)

/-- The multipart request part_004 builds (file parts grouped by origin;
`dynamicFormAnswers = none` when the stored answer list was empty and the
JSON part is not appended at all). -/
structure Request004 where
  url : String
  textParts : List (String × String)
  dynFiles : List (String × FileHandle)
  dynamicFormAnswers : Option (List DynAnswerOut)
  catFiles : List (String × FileHandle)
  additionalAnswers : List AddAnswerOut
deriving DecidableEq, Repr

/-- part_004, lines 90–151: the `dynamicFilesToUpload` object collected
while serializing the dynamic answers (object insertion semantics). -/
def part004DynFilesMap (uploads : List (String × FileHandle))
    (answers : List DynamicFormAnswer) : List (String × FileHandle) :=
  (answers.map (part004DynAnswer uploads)).foldl
    (fun acc p => match p.2 with
      | some (i, f) => objUpsert acc i f
      | none => acc) []

/-- The completeness guard both Step4 variants run first (part_004 lines
33–43): basic identity fields and a selected category. -/
def step4Guard (bd : BasicDetails) : Bool :=
  bd.eventId ≠ "" && bd.eventName ≠ "" && bd.fullName ≠ "" &&
  bd.email ≠ "" && bd.phone ≠ "" &&
  (match bd.registrationCategory with | some c => c.catId ≠ "" | none => false)

/-- part_004 `handleSubmit`, lines 32–232, up to the `fetch`: `none` when
the guard stops submission, otherwise the request that IS sent — there is
no pre-submission required-file gate in this handler. -/
def part004Submit (bd : BasicDetails) : Option Request004 :=
  if !step4Guard bd then none
  else
    let registrationSlabId :=
      match bd.registrationCategory with | some c => c.catId | none => ""
    let textParts : List (String × String) :=
      [("prefix", bd.prefixField), ("name", bd.fullName), ("gender", bd.gender),
       ("email", bd.email), ("mobile", bd.phone), ("designation", bd.designation),
       ("affiliation", bd.affiliation),
       ("medicalCouncilState", bd.medicalCouncilState),
       ("medicalCouncilRegistration", bd.medicalCouncilRegistration),
       ("mealPreference", bd.mealPreference), ("country", bd.country),
       ("city", bd.city), ("state", bd.state), ("address", bd.address),
       ("pincode", bd.pincode)]
    let dynProcessed := bd.dynamicFormAnswers.map
      (part004DynAnswer bd.dynamicFormFileUploads)
    let dynFilesMap :=
      part004DynFilesMap bd.dynamicFormFileUploads bd.dynamicFormAnswers
    let dynSection : Option (List DynAnswerOut) × List (String × FileHandle) :=
      if bd.dynamicFormAnswers.isEmpty then (none, [])
      else (some (dynProcessed.map Prod.fst),
        dynFilesMap.map (fun p => ("file_dyn_" ++ p.1, p.2)))
    let catSection : List AddAnswerOut × List (String × FileHandle) :=
      match bd.registrationCategory with
      | some c =>
        if c.needAdditionalInfo = some true &&
            (match c.additionalFields with | some _ => true | none => false) then
          let processed := (c.additionalFields.getD []).map
            (part004AddAnswer bd.additionalAnswers bd.fileUploads)
          (processed.map Prod.fst, processed.filterMap Prod.snd)
        else ([], [])
      | none => ([], [])
    some
      { url := "/api/events/" ++ bd.eventId ++ "/register?registrationSlabId=" ++
          registrationSlabId
        textParts := textParts
        dynFiles := dynSection.2
        dynamicFormAnswers := dynSection.1
        catFiles := catSection.2
        additionalAnswers := catSection.1 }

/-! ## part_005 — `Step4ConfirmPay.handleSubmit` (the earlier variant with
the pre-fetch required-file throw) -/

/-- One serialized category-additional answer in part_005's shape
(`value: null, fileUrl: null` defaults). -/
structure AddAnswerOut5 where
  id : Nat
  label : String
  type : String
  value : JsonVal
  fileUrl : JsonVal
deriving DecidableEq, Repr

/-- part_005, lines 98–141: walk the category's additional fields in
order. An `upload` field with a live file adds a `file_<id>` part; with a
truthy stored value it echoes that value; with neither it throws
`File upload required for: <label>` — aborting the whole submission before
the `fetch`. Checkbox arrays are joined with `", "`. -/
def part005FieldStep (answers : List (String × AnswerValue))
    (uploadsMap : List (String × FileHandle)) (field : AdditionalField) :
    Except String (AddAnswerOut5 × Option (String × FileHandle)) :=
  let fieldValue := answers.lookup (toString field.id)
  let file := uploadsMap.lookup (toString field.id)
  let base : AddAnswerOut5 :=
    { id := field.id, label := field.label, type := field.type
      value := .nullJ, fileUrl := .nullJ }
  if field.type = "upload" then
    match file with
    | some f =>
      .ok ({ base with value := .nullJ, fileUrl := .nullJ },
        some ("file_" ++ toString field.id, f))
    | none =>
      match fieldValue with
      | some v =>
        if truthyVal v then .ok ({ base with value := jsonOfVal v }, none)
        else .error ("File upload required for: " ++ field.label)
      | none => .error ("File upload required for: " ++ field.label)
  else if field.type = "checkbox" then
    .ok ({ base with value := part005CheckboxNorm (fieldValue.getD .undef) |>
      (fun v => match v with | .str s => JsonVal.s s | _ => .s "") }, none)
  else
    .ok ({ base with value := jsValOrEmpty fieldValue }, none)

/-- The field walk itself: answers accumulate in order, file parts in the
order the files are appended; the first throwing field aborts the walk. -/
def part005ProcessFields (answers : List (String × AnswerValue))
    (uploadsMap : List (String × FileHandle)) :
    List AdditionalField → Except String (List AddAnswerOut5 × List (String × FileHandle))
  | [] => .ok ([], [])
  | field :: rest =>
    match part005FieldStep answers uploadsMap field with
    | .error e => .error e
    | .ok (ans, fileEntry) =>
      match part005ProcessFields answers uploadsMap rest with
      | .error e => .error e
      | .ok (restAns, restFiles) =>
        .ok (ans :: restAns, (fileEntry.elim restFiles (fun p => p :: restFiles)))

/-- The multipart request part_005 sends when nothing throws. -/
structure Request005 where
  textParts : List (String × String)
  catFiles : List (String × FileHandle)
  additionalAnswers : List AddAnswerOut5
deriving DecidableEq, Repr

/-- Outcome of part_005's `handleSubmit`: stopped by the completeness
guard, aborted by the required-file throw (no network call — the catch
block toasts the message and navigates back), or sent. -/
inductive Part005Result
  | incomplete
  | abortedFile (msg : String)
  | sent (req : Request005)
deriving DecidableEq, Repr

/-- part_005 `handleSubmit`, lines 36–184, up to the `fetch`. -/
def part005Submit (bd : BasicDetails) : Part005Result :=
  if !step4Guard bd then .incomplete
  else
    let textParts : List (String × String) :=
      [("registrationSlabId",
          match bd.registrationCategory with | some c => c.catId | none => ""),
       ("prefix", bd.prefixField), ("name", bd.fullName), ("gender", bd.gender),
       ("email", bd.email), ("mobile", bd.phone), ("designation", bd.designation),
       ("affiliation", bd.affiliation),
       ("medicalCouncilState", bd.medicalCouncilState),
       ("medicalCouncilRegistration", bd.medicalCouncilRegistration),
       ("mealPreference", bd.mealPreference), ("country", bd.country),
       ("city", bd.city), ("state", bd.state), ("address", bd.address),
       ("pincode", bd.pincode)]
    let gate :=
      match bd.registrationCategory with
      | some c =>
        c.needAdditionalInfo = some true &&
          (match c.additionalFields with | some _ => true | none => false)
      | none => false
    if gate then
      let c := bd.registrationCategory.getD
        ⟨"", "", 0, none, none⟩
      match part005ProcessFields bd.additionalAnswers bd.fileUploads
          (c.additionalFields.getD []) with
      | .error msg => .abortedFile msg
      | .ok (answers, files) =>
        .sent ⟨textParts, files, answers⟩
    else
      .sent ⟨textParts, [], []⟩

/-! ## part_007 — `Step1BasicDetails.onSubmit` (the variant that keeps
file URLs as textual answers) -/

/-- part_007, lines 290–298 (category `upload` field): a live `File` goes
into the uploads map with `""` recorded as the answer; a nonempty string
value (the previously uploaded URL) is kept as the answer; otherwise
`""`. -/
def part007AddUpload (value : AnswerValue) :
    (AnswerValue × Option FileHandle) :=
  match value with
  | .fileV f => (.str "", some f)
  | .str v => if v ≠ "" then (.str v, none) else (.str "", none)
  | _ => (.str "", none)

/-- part_007, lines 286–316: normalize one category-additional field from
the flat form values into the store's `additionalAnswers` record and
`fileUploads` map. Checkbox values always become arrays here. -/
def part007AddAnswer (formValue : AnswerValue) (field : AdditionalField) :
    (AnswerValue × Option FileHandle) :=
  if field.type = "upload" then part007AddUpload formValue
  else if field.type = "checkbox" then
    match formValue with
    | .arr xs => (.arr xs, none)
    | .str v => (.arr [v], none)
    | _ => (.arr [], none)
  else if field.type = "radio" then
    (.str (match formValue with | .str v => v | _ => ""), none)
  else
    (.str (match formValue with | .str v => v | _ => ""), none)

/-- A dynamic answer as part_007 serializes it (`value`/`fileUrl` always
present, defaulting to `""`). -/
structure Dyn7AnswerOut where
  id : String
  label : String
  type : String
  required : Bool
  value : JsonVal
  fileUrl : JsonVal
  inputTypes : Option String
  options : Option (List String)
deriving DecidableEq, Repr

/-- part_007, lines 324–370: normalize one dynamic field. A held live
file moves to the uploads map (`value`/`fileUrl` set to `""`); otherwise a
nonempty-string form value — the pre-existing URL — becomes both `value`
and `fileUrl`; checkbox values are wrapped into arrays
(`[value].filter(Boolean)`); metadata is copied when truthy/present. -/
def part007DynAnswer (uploads : List (String × FileHandle))
    (formValue : AnswerValue) (field : DynamicFormField) :
    Dyn7AnswerOut × Option (String × FileHandle) :=
  let existingFile := uploads.lookup field.id
  let base : Dyn7AnswerOut :=
    { id := field.id, label := field.label, type := field.type
      required := field.required, value := .s "", fileUrl := .s ""
      inputTypes := if truthyStr field.inputTypes then field.inputTypes else none
      options := field.options }
  let isFileField := isFileKind field.type field.inputTypes
  if isFileField then
    match existingFile with
    | some f => (base, some (field.id, f))
    | none =>
      match formValue with
      | .str v =>
        if v ≠ "" then ({ base with value := .s v, fileUrl := .s v }, none)
        else (base, none)
      | _ => (base, none)
  else if field.type = "checkbox" then
    ({ base with value := jsonOfVal (part004CheckboxNorm formValue) }, none)
  else
    ({ base with value := jsValOrEmpty (some formValue) }, none)

/-! ## Step1BasicDetails.tsx `onSubmit` (src/components variant) -/

/-- Step1BasicDetails.tsx, lines 331–377: normalize one dynamic field from
the form value and the store's upload map. Only `input` + `inputTypes
"file"` is treated as a file here; its live file moves to the uploads map
with `null` answers, any other value falls to `value || ""`. The checkbox
branch is `Array.isArray(value) ? value : value || []`. -/
def step1DynAnswer (uploads : List (String × FileHandle))
    (formValue : AnswerValue) (field : DynamicFormField) :
    DynAnswerOut × Option (String × FileHandle) :=
  let file := uploads.lookup field.id
  let base : DynAnswerOut :=
    { id := field.id, label := field.label, type := field.type
      required := field.required, value := some .nullJ, fileUrl := some .nullJ
      inputTypes := if field.type = "input" then field.inputTypes else none
      options :=
        if (match field.options with | some _ => true | none => false) &&
            (field.type = "select" || field.type = "radio" ||
              field.type = "checkbox") then
          field.options
        else none }
  if field.type = "input" && field.inputTypes = some "file" then
    match file with
    | some f => (base, some (field.id, f))
    | none => ({ base with value := some (jsValOrEmpty (some formValue)) }, none)
  else if field.type = "checkbox" then
    ({ base with value := some (jsonOfVal (step1CheckboxNorm formValue)) }, none)
  else
    ({ base with value := some (jsValOrEmpty (some formValue)) }, none)

/-! ## Payment page (app/(section)/registration/payment/page.tsx) -/

/-- The order object built from the create-order response (lines 138–144),
restricted to the fields `handlePay` reads. -/
structure RazorpayOrder where
  id : String
  amount : Nat
  currency : Option String
  razorpayKeyId : Option String
  paymentId : String
deriving DecidableEq, Repr

/-- The prefilled contact block of the widget options. -/
structure PrefillInfo where
  name : String
  email : String
  contact : String
deriving DecidableEq, Repr

/-- The configuration handed to the payment widget. -/
structure RazorpayOptions where
  key : String
  amount : Nat
  currency : String
  name : String
  description : String
  order_id : String
  prefill : PrefillInfo
  themeColor : String
deriving DecidableEq, Repr

/-- `handlePay` widget options (page.tsx, lines 181–276): the amount is
multiplied by 100 (rupees → paise), `order_id` is the created order's id,
and the prefill fields read the store's `fullName`/`email`/`phone`, each
with a `|| ""` fallback. -/
def razorpayOptions (envKeyId : String) (order : RazorpayOrder)
    (bd : BasicDetails) : RazorpayOptions where
  key := jsOrStr order.razorpayKeyId envKeyId
  amount := order.amount * 100
  currency := jsOrStr order.currency "INR"
  name := "AIG Hospitals - Event Registration"
  description := "Complete your event registration payment"
  order_id := order.id
  prefill :=
    ⟨jsOrStr1 bd.fullName "", jsOrStr1 bd.email "", jsOrStr1 bd.phone ""⟩
  themeColor := "#00509E"

/-- Outcome of the verification `fetch` as the handler observes it:
`res.ok` with a success flag in the body, `!res.ok` with an optional
`message` in the body, or a thrown network error. -/
inductive VerifyOutcome
  | httpOk (success : Bool)
  | httpFailure (message : Option String)
  | networkError
deriving DecidableEq, Repr

/-- A `router.push` target in structured form: the query-string values as
the handler computes them, before `encodeURIComponent`; the encoding is a
bijection on the carried message so it is elided here. -/
structure Redirect where
  path : String
  registrationId : Option String
  paymentId : Option String
  message : Option String
deriving DecidableEq, Repr

/-- Observable steps of the widget completion handler. -/
inductive HandlerAction
  | setStage (s : String)
  | verifyRequest
  | toastSuccess (s : String)
  | toastError (s : String)
  | push (r : Redirect)
deriving DecidableEq, Repr

/-- The widget completion handler (page.tsx, lines 188–259) as the
sequence of observable actions it performs for a given verification
outcome. Exactly one verification request is issued; each arm ends in a
single redirect and the handler returns. -/
def razorpayHandlerTrace (registrationId razorpayPaymentId : String)
    (outcome : VerifyOutcome) : List HandlerAction :=
  [.setStage "Verifying payment...", .verifyRequest] ++
  match outcome with
  | .httpOk true =>
    [.setStage "Payment successful! Redirecting...",
     .toastSuccess "Payment successful!",
     .push ⟨"/registration/payment/success", some registrationId,
       some razorpayPaymentId, none⟩]
  | .httpOk false =>
    [.setStage "Payment verification failed",
     .toastError "Payment verification failed",
     .push ⟨"/registration/payment/failed", some registrationId,
       some razorpayPaymentId, none⟩]
  | .httpFailure message =>
    [.setStage "Payment verification error",
     .push ⟨"/registration/payment/failed", some registrationId, none,
       some (jsOrStr message "Payment verification failed")⟩]
  | .networkError =>
    [.setStage "Network error occurred",
     .toastError "Network error occurred",
     .push ⟨"/registration/payment/error", some registrationId, none,
       some "Network error occurred"⟩]

/-- Count the verification requests in a handler trace. -/
def verifyCount (trace : List HandlerAction) : Nat :=
  trace.countP (fun a => a = .verifyRequest)

/-- The redirects in a handler trace. -/
def pushedRedirects (trace : List HandlerAction) : List Redirect :=
  trace.filterMap (fun a => match a with | .push r => some r | _ => none)

/-! ## Theorems -/

/-- `s || ""` is the identity on strings. -/
theorem jsOrStr1_empty_default (s : String) : jsOrStr1 s "" = s := by
  unfold jsOrStr1; split <;> simp_all

/-- C7: when the user initiates payment on a created order, the widget is
configured with amount exactly `order.amount * 100` (minor currency
units), with the created order's id as `order_id`, and with prefilled
contact details equal to the stored full name, email, and phone. -/
theorem c7_widget_configuration (envKeyId : String) (order : RazorpayOrder)
    (bd : BasicDetails) :
    (razorpayOptions envKeyId order bd).amount = order.amount * 100 ∧
    (razorpayOptions envKeyId order bd).order_id = order.id ∧
    (razorpayOptions envKeyId order bd).prefill =
      ⟨bd.fullName, bd.email, bd.phone⟩ := by
  refine ⟨rfl, rfl, ?_⟩
  simp [razorpayOptions, jsOrStr1_empty_default]

/-- C8: after `resetForm`, regardless of the prior state, the store equals
its initial state: step 1, `basicDetails` at its initial value (all text
fields empty except `country = "India"`, empty answer and file-upload
collections), empty field/person/workshop lists, no badge, and both skip
flags false. -/
theorem c8_resetForm_initial (s : RegistrationState) :
    resetForm s = initialRegistrationState ∧
    (resetForm s).currentStep = 1 ∧
    (resetForm s).basicDetails = initialBasicDetails ∧
    initialBasicDetails.country = "India" ∧
    initialBasicDetails.eventId = "" ∧
    initialBasicDetails.eventName = "" ∧
    initialBasicDetails.prefixField = "" ∧
    initialBasicDetails.fullName = "" ∧
    initialBasicDetails.email = "" ∧
    initialBasicDetails.phone = "" ∧
    initialBasicDetails.affiliation = "" ∧
    initialBasicDetails.designation = "" ∧
    initialBasicDetails.medicalCouncilRegistration = "" ∧
    initialBasicDetails.medicalCouncilState = "" ∧
    initialBasicDetails.address = "" ∧
    initialBasicDetails.state = "" ∧
    initialBasicDetails.city = "" ∧
    initialBasicDetails.pincode = "" ∧
    initialBasicDetails.mealPreference = "" ∧
    initialBasicDetails.gender = "" ∧
    initialBasicDetails.registrationId = "" ∧
    initialBasicDetails.additionalAnswers = [] ∧
    initialBasicDetails.fileUploads = [] ∧
    initialBasicDetails.dynamicFormAnswers = [] ∧
    initialBasicDetails.dynamicFormFileUploads = [] ∧
    (resetForm s).dynamicFormFields = [] ∧
    (resetForm s).accompanyingPersons = [] ∧
    (resetForm s).selectedWorkshops = [] ∧
    (resetForm s).badgeInfo = none ∧
    (resetForm s).skippedAccompanying = false ∧
    (resetForm s).skippedWorkshops = false := by
  repeat' constructor

/-- C9: `updateDynamicFormAnswer` on an id with no existing answer and no
matching field definition leaves the whole store state unchanged. -/
theorem c9_update_unknown_id_noop (s : RegistrationState) (id : String)
    (value : AnswerValue) (fileUrl : Option String)
    (hAns : s.basicDetails.dynamicFormAnswers.any (fun a => a.id = id) = false)
    (hFld : s.dynamicFormFields.find? (fun f => f.id = id) = none) :
    updateDynamicFormAnswer s id value fileUrl = s := by
  unfold updateDynamicFormAnswer
  simp [hAns, hFld]

/-- Witness for C9 at a concrete state and id. -/
theorem c9_update_unknown_id_noop_witness :
    initialRegistrationState.basicDetails.dynamicFormAnswers.any
      (fun a => a.id = "q7") = false ∧
    initialRegistrationState.dynamicFormFields.find?
      (fun f => f.id = "q7") = none ∧
    updateDynamicFormAnswer initialRegistrationState "q7"
      (.str "hello") none = initialRegistrationState :=
  ⟨rfl, rfl, c9_update_unknown_id_noop initialRegistrationState "q7"
    (.str "hello") none rfl rfl⟩

/-- C6: an HTTP-failure verification response redirects to the `failed`
route carrying the registration id and the message extracted from the
response body, after the verification-error stage; a thrown network error
redirects to the distinct network-error route; each arm issues exactly one
verification request — nothing is retried. -/
theorem c6_verification_failure_routes (rid pid msg : String)
    (hmsg : msg ≠ "") :
    pushedRedirects (razorpayHandlerTrace rid pid (.httpFailure (some msg))) =
      [⟨"/registration/payment/failed", some rid, none, some msg⟩] ∧
    HandlerAction.setStage "Payment verification error" ∈
      razorpayHandlerTrace rid pid (.httpFailure (some msg)) ∧
    pushedRedirects (razorpayHandlerTrace rid pid .networkError) =
      [⟨"/registration/payment/error", some rid, none,
        some "Network error occurred"⟩] ∧
    verifyCount (razorpayHandlerTrace rid pid (.httpFailure (some msg))) = 1 ∧
    verifyCount (razorpayHandlerTrace rid pid .networkError) = 1 ∧
    ("/registration/payment/failed" : String) ≠
      "/registration/payment/error" := by
  refine ⟨?_, ?_, ?_, ?_, ?_, by decide⟩
  · simp [razorpayHandlerTrace, pushedRedirects, jsOrStr, hmsg]
  · simp [razorpayHandlerTrace]
  · simp [razorpayHandlerTrace, pushedRedirects]
  · simp [razorpayHandlerTrace, verifyCount]
  · simp [razorpayHandlerTrace, verifyCount]

/-- Witness for C6 at concrete ids and message. -/
theorem c6_verification_failure_routes_witness :
    ("order not found" : String) ≠ "" ∧
    (pushedRedirects (razorpayHandlerTrace "r1" "p1"
        (.httpFailure (some "order not found"))) =
      [⟨"/registration/payment/failed", some "r1", none,
        some "order not found"⟩] ∧
      HandlerAction.setStage "Payment verification error" ∈
        razorpayHandlerTrace "r1" "p1" (.httpFailure (some "order not found")) ∧
      pushedRedirects (razorpayHandlerTrace "r1" "p1" .networkError) =
        [⟨"/registration/payment/error", some "r1", none,
          some "Network error occurred"⟩] ∧
      verifyCount (razorpayHandlerTrace "r1" "p1"
        (.httpFailure (some "order not found"))) = 1 ∧
      verifyCount (razorpayHandlerTrace "r1" "p1" .networkError) = 1 ∧
      ("/registration/payment/failed" : String) ≠
        "/registration/payment/error") :=
  ⟨by decide, c6_verification_failure_routes "r1" "p1" "order not found"
    (by decide)⟩

/-- A string has positive length exactly when it is nonempty. -/
theorem string_one_le_length_iff (s : String) : 1 ≤ s.length ↔ s ≠ "" := by
  cases s with
  | mk data =>
    cases data with
    | nil => simp [String.length]
    | cons c cs =>
      simp only [String.length, List.length_cons, Nat.succ_le_iff]
      constructor
      · intro _ h
        exact List.cons_ne_nil c cs (congrArg String.data h)
      · intro _
        omega

/-- `z.string().min(1)` accepts a string exactly when it is nonempty. -/
theorem checkRule_requiredString_str (msg s : String) :
    checkRule (.requiredString msg) (.str s) = none ↔ s ≠ "" := by
  by_cases h : 1 ≤ s.length
  · simp [checkRule, h, (string_one_le_length_iff s).mp h]
  · have hs : s = "" := by
      by_contra hne
      exact h ((string_one_le_length_iff s).mpr hne)
    subst hs
    simp [checkRule]

/-- A dynamic field of unrecognized type that is required. -/
def c3Field : DynamicFormField :=
  ⟨"f1", "bogus", "Extra", none, true, none, none, none, none, none⟩

/-- C3 counterexample: the claim says a field whose kind matches no
recognized case gets an optional-string rule regardless of the required
flag, but a required dynamic field of unrecognized type `"bogus"` falls
into the `default:` arm of the required switch and gets `z.string().min(1)`
— the empty string is rejected. -/
theorem c3_counterexample :
    dynamicFieldRule c3Field = .requiredString "Extra is required" ∧
    checkRule (dynamicFieldRule c3Field) (.str "") = some "Extra is required" :=
  ⟨rfl, rfl⟩

/-- C3 as amended: schema synthesis is total (every descriptor gets a
rule; nothing throws). A category-additional field of unrecognized type
gets an optional-string rule accepting every string. A dynamic field of
unrecognized type gets `z.any().optional()` (accepting everything) when it
is not required, but `z.string().min(1)` — rejecting the empty string —
when it is required. -/
theorem c3_unrecognized_kind_fallback (f : AdditionalField)
    (g : DynamicFormField)
    (hf : f.type ∉ (["textbox", "date", "radio", "checkbox", "upload"] : List String))
    (hg : g.type ∉ (["input", "checkbox"] : List String)) :
    additionalFieldRule f = .optionalString ∧
    (∀ s : String, checkRule (additionalFieldRule f) (.str s) = none) ∧
    (g.required = false → ∀ v : AnswerValue, checkRule (dynamicFieldRule g) v = none) ∧
    (g.required = true →
      dynamicFieldRule g = .requiredString (g.label ++ " is required") ∧
      ∀ s : String, (checkRule (dynamicFieldRule g) (.str s) = none ↔ s ≠ "")) := by
  simp only [List.mem_cons, List.mem_singleton, not_or] at hf hg
  have hfr : additionalFieldRule f = .optionalString := by
    unfold additionalFieldRule
    split <;> simp_all
  refine ⟨hfr, ?_, ?_, ?_⟩
  · intro s
    rw [hfr]
    simp [checkRule]
  · intro hreq v
    unfold dynamicFieldRule
    rw [hreq]
    simp only [Bool.false_eq_true, if_false]
    cases v <;> simp [checkRule]
  · intro hreq
    have hgr : dynamicFieldRule g = .requiredString (g.label ++ " is required") := by
      unfold dynamicFieldRule
      rw [hreq]
      simp only [if_true]
      split <;> simp_all
    exact ⟨hgr, fun s => hgr ▸ checkRule_requiredString_str _ s⟩

/-- Witness for C3's amended theorem at concrete descriptors. -/
theorem c3_unrecognized_kind_fallback_witness :
    (("mystery" : String) ∉ (["textbox", "date", "radio", "checkbox", "upload"] : List String)) ∧
    (("rating" : String) ∉ (["input", "checkbox"] : List String)) ∧
    (additionalFieldRule ⟨9, "mystery", "My"⟩ = .optionalString ∧
      (∀ s : String, checkRule (additionalFieldRule ⟨9, "mystery", "My"⟩) (.str s) = none) ∧
      ((⟨"g1", "rating", "Stars", none, true, none, none, none, none, none⟩ :
          DynamicFormField).required = false →
        ∀ v : AnswerValue, checkRule (dynamicFieldRule
          ⟨"g1", "rating", "Stars", none, true, none, none, none, none, none⟩) v = none) ∧
      ((⟨"g1", "rating", "Stars", none, true, none, none, none, none, none⟩ :
          DynamicFormField).required = true →
        dynamicFieldRule ⟨"g1", "rating", "Stars", none, true, none, none, none, none, none⟩ =
          .requiredString ("Stars" ++ " is required") ∧
        ∀ s : String, (checkRule (dynamicFieldRule
          ⟨"g1", "rating", "Stars", none, true, none, none, none, none, none⟩)
            (.str s) = none ↔ s ≠ ""))) :=
  ⟨by decide, by decide,
    c3_unrecognized_kind_fallback ⟨9, "mystery", "My"⟩
      ⟨"g1", "rating", "Stars", none, true, none, none, none, none, none⟩
      (by decide) (by decide)⟩

/-- Claim C5's reading of the checkbox rule: length at least
`minSelected` (default 1 only when unset), and at most `maxSelected`
whenever one is set. -/
def claimedCheckboxAccepts (f : DynamicFormField) (xs : List String) : Bool :=
  decide (f.minSelected.getD 1 ≤ xs.length) &&
  (match f.maxSelected with
    | some mx => decide (xs.length ≤ mx)
    | none => true)

/-- A required checkbox field with `minSelected = 0` set. -/
def c5Field : DynamicFormField :=
  ⟨"c5", "checkbox", "Toppings", none, true, none, none, some ["a", "b"], some 0, none⟩

/-- The acceptance behaviour of `z.array(...).min(m).max(...)` on an
array value. -/
theorem checkRule_checkbox_arr (m : Nat) (mmsg : String)
    (maxSel : Option (Nat × String)) (xs : List String) :
    checkRule (.checkboxRule m mmsg maxSel) (.arr xs) = none ↔
      (m ≤ xs.length ∧
        ∀ mx mxMsg, maxSel = some (mx, mxMsg) → xs.length ≤ mx) := by
  cases maxSel with
  | none =>
    simp only [checkRule]
    split <;> simp_all
  | some p =>
    obtain ⟨mx, mxMsg⟩ := p
    simp only [checkRule]
    split <;> (try split) <;> simp_all

/-- C5 counterexample: for a required checkbox field with
`minSelected = 0`, the claim accepts the empty selection (length ≥ 0),
but `field.minSelected || 1` treats the set value `0` as unset, so the
synthesized rule demands at least one selection and rejects `[]`. -/
theorem c5_counterexample :
    claimedCheckboxAccepts c5Field [] = true ∧
    checkRule (dynamicFieldRule c5Field) (.arr []) =
      some "Please select at least 1 option(s) for Toppings" :=
  ⟨rfl, rfl⟩

/-- C5 as amended: for a required checkbox field the synthesized rule
accepts exactly the (string-)arrays of length at least
`minSelected || 1` — a set `minSelected` of `0` behaves as 1, not 0 — and
of length at most `maxSelected` whenever `maxSelected` is set and nonzero;
only arrays are accepted; in particular with `minSelected = 1` the empty
selection is rejected with the field-labeled message and (with no
`maxSelected`) a one-element selection is accepted. -/
theorem c5_required_checkbox_rule (f : DynamicFormField)
    (hreq : f.required = true) (hty : f.type = "checkbox") :
    (∀ xs : List String,
      checkRule (dynamicFieldRule f) (.arr xs) = none ↔
        (jsOrNat f.minSelected 1 ≤ xs.length ∧
          ∀ mx, f.maxSelected = some mx → mx ≠ 0 → xs.length ≤ mx)) ∧
    (∀ v : AnswerValue, checkRule (dynamicFieldRule f) v = none →
      ∃ xs, v = .arr xs) ∧
    (f.minSelected = some 1 →
      checkRule (dynamicFieldRule f) (.arr []) =
        some ("Please select at least 1 option(s) for " ++ f.label)) ∧
    (f.minSelected = some 1 → f.maxSelected = none →
      ∀ x : String, checkRule (dynamicFieldRule f) (.arr [x]) = none) := by
  have hrule : dynamicFieldRule f = .checkboxRule (jsOrNat f.minSelected 1)
      ("Please select at least " ++ toString (jsOrNat f.minSelected 1) ++
        " option(s) for " ++ f.label)
      (match f.maxSelected with
        | some mx =>
          if mx = 0 then none
          else some (mx, "Maximum " ++ toString mx ++
            " selections allowed for " ++ f.label)
        | none => none) := by
    unfold dynamicFieldRule
    rw [hreq]
    simp only [if_true]
    split <;> simp_all
  refine ⟨?_, ?_, ?_, ?_⟩
  · intro xs
    rw [hrule, checkRule_checkbox_arr]
    cases hmax : f.maxSelected with
    | none => simp
    | some mx =>
      by_cases hz : mx = 0
      · subst hz
        simp
      · simp [hz]
  · intro v
    rw [hrule]
    cases v with
    | arr xs => exact fun _ => ⟨xs, rfl⟩
    | str s => simp [checkRule]
    | fileV g => simp [checkRule]
    | undef => simp [checkRule]
  · intro hmin
    rw [hrule, hmin]
    simp only [checkRule, jsOrNat]
    rfl
  · intro hmin hmax x
    rw [hrule, hmin, hmax]
    simp [checkRule, jsOrNat]

/-- Witness for C5's amended theorem at a concrete field. -/
theorem c5_required_checkbox_rule_witness :
    ((⟨"w5", "checkbox", "Days", none, true, none, none, none, some 1, none⟩ :
        DynamicFormField).required = true) ∧
    ((⟨"w5", "checkbox", "Days", none, true, none, none, none, some 1, none⟩ :
        DynamicFormField).type = "checkbox") ∧
    ((∀ xs : List String,
      checkRule (dynamicFieldRule
          ⟨"w5", "checkbox", "Days", none, true, none, none, none, some 1, none⟩)
          (.arr xs) = none ↔
        (jsOrNat (some 1) 1 ≤ xs.length ∧
          ∀ mx, (none : Option Nat) = some mx → mx ≠ 0 → xs.length ≤ mx)) ∧
    (∀ v : AnswerValue, checkRule (dynamicFieldRule
        ⟨"w5", "checkbox", "Days", none, true, none, none, none, some 1, none⟩)
        v = none → ∃ xs, v = .arr xs) ∧
    ((some 1 : Option Nat) = some 1 →
      checkRule (dynamicFieldRule
          ⟨"w5", "checkbox", "Days", none, true, none, none, none, some 1, none⟩)
          (.arr []) =
        some ("Please select at least 1 option(s) for " ++ "Days")) ∧
    ((some 1 : Option Nat) = some 1 → (none : Option Nat) = none →
      ∀ x : String, checkRule (dynamicFieldRule
          ⟨"w5", "checkbox", "Days", none, true, none, none, none, some 1, none⟩)
          (.arr [x]) = none)) :=
  ⟨rfl, rfl,
    c5_required_checkbox_rule
      ⟨"w5", "checkbox", "Days", none, true, none, none, none, some 1, none⟩
      rfl rfl⟩

/-- C2 counterexample: at the two cited sites the claim fails. In the
Step1BasicDetails `onSubmit` normalizer, `Array.isArray(v) ? v : v || []`
passes a bare nonempty string through as a bare string, and in the
part_005 category-additional normalizer the checkbox array is joined into
a single comma-separated string. -/
theorem c2_counterexample :
    step1CheckboxNorm (.str "Veg") = .str "Veg" ∧
    part005CheckboxNorm (.arr ["Veg", "Jain"]) = .str "Veg, Jain" :=
  ⟨rfl, rfl⟩

/-- C2 as amended: only the part_004 dynamic normalizer (and the part_007
variant, shown on its category checkbox branch) always yields an array,
wrapping a bare string into a one-element array; the Step1BasicDetails
`onSubmit` normalizer passes a bare nonempty string through unchanged, and
the part_005 normalizer always yields a joined string, never an array. -/
theorem c2_checkbox_normalization (v : AnswerValue) (s : String)
    (f : AdditionalField) (hs : s ≠ "") (hf : f.type = "checkbox") :
    (∃ xs, part004CheckboxNorm v = .arr xs) ∧
    part004CheckboxNorm (.str s) = .arr [s] ∧
    (∃ t, part005CheckboxNorm v = .str t) ∧
    step1CheckboxNorm (.str s) = .str s ∧
    (part007AddAnswer (.str s) f).1 = .arr [s] := by
  refine ⟨?_, ?_, ?_, ?_, ?_⟩
  · cases v with
    | str t => exact ⟨if t = "" then [] else [t], rfl⟩
    | arr xs => exact ⟨xs, rfl⟩
    | fileV g => exact ⟨[], rfl⟩
    | undef => exact ⟨[], rfl⟩
  · simp [part004CheckboxNorm, hs]
  · cases v <;> exact ⟨_, rfl⟩
  · simp [step1CheckboxNorm, truthyVal, hs]
  · simp [part007AddAnswer, hf]

/-- Witness for C2's amended theorem at concrete values. -/
theorem c2_checkbox_normalization_witness :
    (("Veg" : String) ≠ "") ∧
    ((⟨3, "checkbox", "Options"⟩ : AdditionalField).type = "checkbox") ∧
    ((∃ xs, part004CheckboxNorm (.arr ["x"]) = .arr xs) ∧
      part004CheckboxNorm (.str "Veg") = .arr ["Veg"] ∧
      (∃ t, part005CheckboxNorm (.arr ["x"]) = .str t) ∧
      step1CheckboxNorm (.str "Veg") = .str "Veg" ∧
      (part007AddAnswer (.str "Veg") ⟨3, "checkbox", "Options"⟩).1 =
        .arr ["Veg"]) :=
  ⟨by decide, rfl,
    c2_checkbox_normalization (.arr ["x"]) "Veg" ⟨3, "checkbox", "Options"⟩
      (by decide) rfl⟩

/-- When no live file is held for an answer's id, part_004 adds no entry
to the files-to-upload map for it, whatever its kind. -/
theorem part004DynAnswer_no_upload (uploads : List (String × FileHandle))
    (a : DynamicFormAnswer) (h : uploads.lookup a.id = none) :
    (part004DynAnswer uploads a).2 = none := by
  unfold part004DynAnswer
  rw [h]
  cases hv : a.value <;> simp [hv] <;> split <;> (try split) <;> rfl

/-- With no live file held for any listed answer, part_004's collected
files-to-upload map is empty. -/
theorem part004DynFilesMap_eq_nil (uploads : List (String × FileHandle))
    (answers : List DynamicFormAnswer)
    (h : ∀ b ∈ answers, uploads.lookup b.id = none) :
    part004DynFilesMap uploads answers = [] := by
  unfold part004DynFilesMap
  induction answers with
  | nil => rfl
  | cons b bs ih =>
    simp only [List.map_cons, List.foldl_cons,
      part004DynAnswer_no_upload uploads b (h b (List.mem_cons_self b bs))]
    exact ih (fun x hx => h x (List.mem_cons_of_mem b hx))

/-- C4: round-trip on editing. A file-kind answer carrying a pre-existing
file URL as its (nonempty string) value with no live file handle held
normalizes — in part_004's submit serializer and in part_007's dynamic and
category-upload normalizers — to a textual answer equal to that URL, with
no entry added to the files-to-upload map; and when no live handle is held
for any listed answer, part_004's collected file map is empty. -/
theorem c4_url_roundtrip (uploads : List (String × FileHandle))
    (a : DynamicFormAnswer) (url : String) (g : DynamicFormField)
    (f : AdditionalField)
    (hfa : isFileKind a.type a.inputTypes = true)
    (hua : uploads.lookup a.id = none)
    (hva : a.value = .str url)
    (hurl : url ≠ "")
    (hfg : isFileKind g.type g.inputTypes = true)
    (hug : uploads.lookup g.id = none)
    (hff : f.type = "upload") :
    (part004DynAnswer uploads a).1.value = some (.s url) ∧
    (part004DynAnswer uploads a).1.fileUrl = some (.s url) ∧
    (part004DynAnswer uploads a).2 = none ∧
    (part007DynAnswer uploads (.str url) g).1.value = .s url ∧
    (part007DynAnswer uploads (.str url) g).1.fileUrl = .s url ∧
    (part007DynAnswer uploads (.str url) g).2 = none ∧
    part007AddAnswer (.str url) f = (.str url, none) ∧
    (∀ answers : List DynamicFormAnswer,
      (∀ b ∈ answers, uploads.lookup b.id = none) →
      part004DynFilesMap uploads answers = []) := by
  refine ⟨?_, ?_, ?_, ?_, ?_, ?_, ?_,
    fun answers h => part004DynFilesMap_eq_nil uploads answers h⟩ <;>
    simp [part004DynAnswer, part007DynAnswer, part007AddAnswer,
      part007AddUpload, hfa, hua, hva, hurl, hfg, hug, hff] <;>
    cases a.options <;> rfl

/-- Witness for C4 at a concrete editing answer set. -/
theorem c4_url_roundtrip_witness :
    isFileKind "file" none = true ∧
    (([] : List (String × FileHandle)).lookup "d1" = none) ∧
    ((⟨"d1", "ID Proof", "file", true, .str "https://cdn/x.pdf", none, none,
        none, none, none⟩ : DynamicFormAnswer).value = .str "https://cdn/x.pdf") ∧
    ("https://cdn/x.pdf" : String) ≠ "" ∧
    ((part004DynAnswer []
        ⟨"d1", "ID Proof", "file", true, .str "https://cdn/x.pdf", none, none,
          none, none, none⟩).1.value = some (.s "https://cdn/x.pdf") ∧
      (part004DynAnswer []
        ⟨"d1", "ID Proof", "file", true, .str "https://cdn/x.pdf", none, none,
          none, none, none⟩).2 = none ∧
      part007AddAnswer (.str "https://cdn/x.pdf") ⟨4, "upload", "CV"⟩ =
        (.str "https://cdn/x.pdf", none) ∧
      part004DynFilesMap []
        [⟨"d1", "ID Proof", "file", true, .str "https://cdn/x.pdf", none, none,
          none, none, none⟩] = []) := by
  have h := c4_url_roundtrip []
    ⟨"d1", "ID Proof", "file", true, .str "https://cdn/x.pdf", none, none,
      none, none, none⟩
    "https://cdn/x.pdf"
    ⟨"g1", "file", "Proof", none, true, none, none, none, none, none⟩
    ⟨4, "upload", "CV"⟩ rfl rfl rfl (by decide) rfl rfl rfl
  exact ⟨rfl, rfl, rfl, by decide,
    h.1, h.2.2.1, h.2.2.2.2.2.2.1,
    h.2.2.2.2.2.2.2 _ (by intro b hb; simp at hb; subst hb; rfl)⟩

/-- If some `upload` field in the list has neither a live file nor a
truthy stored value, part_005's field walk throws before any request is
assembled. -/
theorem part005ProcessFields_error (answers : List (String × AnswerValue))
    (uploadsMap : List (String × FileHandle)) (fields : List AdditionalField)
    (f : AdditionalField) (hmem : f ∈ fields) (hup : f.type = "upload")
    (hnofile : uploadsMap.lookup (toString f.id) = none)
    (hnoval : ∀ v, answers.lookup (toString f.id) = some v → truthyVal v = false) :
    ∃ msg, part005ProcessFields answers uploadsMap fields = .error msg := by
  have hstepf : ∃ msg, part005FieldStep answers uploadsMap f = .error msg := by
    unfold part005FieldStep
    rw [hup]
    simp only [if_true, hnofile]
    cases hv : answers.lookup (toString f.id) with
    | none => exact ⟨_, rfl⟩
    | some v =>
      have hfalse := hnoval v hv
      simp [hfalse]
  induction fields with
  | nil => cases hmem
  | cons g rest ih =>
    rcases List.mem_cons.mp hmem with hg | hmem'
    · subst hg
      obtain ⟨msg, hmsg⟩ := hstepf
      unfold part005ProcessFields
      rw [hmsg]
      exact ⟨msg, rfl⟩
    · obtain ⟨msg, hmsg⟩ := ih hmem'
      unfold part005ProcessFields
      cases hstep : part005FieldStep answers uploadsMap g with
      | error e => exact ⟨e, rfl⟩
      | ok p =>
        obtain ⟨ans, fileEntry⟩ := p
        rw [hmsg]
        exact ⟨msg, rfl⟩

/-- A store state whose required dynamic file field "ID Proof" has neither
a live file handle nor a pre-existing URL, with the completeness guard
satisfied. -/
def c1Bd : BasicDetails :=
  { initialBasicDetails with
    eventId := "e1"
    eventName := "Conf"
    fullName := "Dr A"
    email := "a@b.c"
    phone := "1234567890"
    registrationCategory := some ⟨"slab1", "Standard", 100, none, none⟩
    dynamicFormAnswers :=
      [⟨"d1", "ID Proof", "file", true, .undef, none, none, none, none, none⟩] }

/-- C1 counterexample: in the part_004 submit handler, a required dynamic
file field with neither a live file nor a URL does NOT abort the
submission — the multipart request is produced (and sent), with the
field's record carrying no `value`/`fileUrl` keys and no file part. -/
theorem c1_counterexample :
    (part004Submit c1Bd).isSome = true ∧
    Option.map (fun r => r.dynamicFormAnswers) (part004Submit c1Bd) =
      some (some [⟨"d1", "ID Proof", "file", true, none, none, none, none⟩]) ∧
    Option.map (fun r => r.dynFiles) (part004Submit c1Bd) = some [] :=
  ⟨rfl, rfl, rfl⟩

/-- C1 as amended: only the part_005 handler gates on missing files, and
only for category-additional `upload` fields: such a field with neither a
live file nor a truthy stored value makes `handleSubmit` throw before the
network call (the catch toasts the field-labeled message and navigates
back). The part_004 handler never blocks: with the completeness guard
satisfied it produces the request, serializing a missing dynamic file
field with its `value` and `fileUrl` keys deleted. -/
theorem c1_missing_file_gate (bd : BasicDetails) (c : RegistrationCategory)
    (f : AdditionalField)
    (hguard : step4Guard bd = true)
    (hcat : bd.registrationCategory = some c)
    (hneed : c.needAdditionalInfo = some true)
    (hmem : f ∈ c.additionalFields.getD [])
    (hup : f.type = "upload")
    (hnofile : bd.fileUploads.lookup (toString f.id) = none)
    (hnoval : ∀ v, bd.additionalAnswers.lookup (toString f.id) = some v →
      truthyVal v = false) :
    (∃ msg, part005Submit bd = .abortedFile msg) ∧
    (∃ r, part004Submit bd = some r) ∧
    (∀ a ∈ bd.dynamicFormAnswers, isFileKind a.type a.inputTypes = true →
      bd.dynamicFormFileUploads.lookup a.id = none →
      (∀ u, a.value = .str u → u = "") →
      (part004DynAnswer bd.dynamicFormFileUploads a).1.value = none ∧
      (part004DynAnswer bd.dynamicFormFileUploads a).1.fileUrl = none ∧
      (part004DynAnswer bd.dynamicFormFileUploads a).2 = none) := by
  have hfieldsSome : ∃ l, c.additionalFields = some l := by
    cases haf : c.additionalFields with
    | none => rw [haf] at hmem; cases hmem
    | some l => exact ⟨l, rfl⟩
  obtain ⟨l, hl⟩ := hfieldsSome
  refine ⟨?_, ?_, ?_⟩
  · obtain ⟨msg, hmsg⟩ := part005ProcessFields_error bd.additionalAnswers
      bd.fileUploads (c.additionalFields.getD []) f hmem hup hnofile hnoval
    refine ⟨msg, ?_⟩
    unfold part005Submit
    rw [hguard]
    simp [hcat, hneed, hl, hmsg]
    rw [hl] at hmsg
    simp only [Option.getD_some] at hmsg
    rw [hmsg]
  · unfold part004Submit
    rw [hguard]
    exact ⟨_, rfl⟩
  · intro a _ hkind hupA hvalA
    unfold part004DynAnswer
    rw [hupA]
    cases hv : a.value with
    | str u =>
      have hu : u = "" := hvalA u hv
      subst hu
      cases a.options <;> simp [hkind]
    | arr xs => cases a.options <;> simp [hkind]
    | fileV g => cases a.options <;> simp [hkind]
    | undef => cases a.options <;> simp [hkind]

/-- A state whose category requires additional info with one `upload`
field, for which neither a live file nor a stored value exists. -/
def c1WitnessBd : BasicDetails :=
  { initialBasicDetails with
    eventId := "e1"
    eventName := "Conf"
    fullName := "Dr A"
    email := "a@b.c"
    phone := "1234567890"
    registrationCategory :=
      some ⟨"slab1", "Standard", 100, some true, some [⟨7, "upload", "License"⟩]⟩ }

/-- Witness for C1's amended theorem at a concrete state. -/
theorem c1_missing_file_gate_witness :
    step4Guard c1WitnessBd = true ∧
    c1WitnessBd.registrationCategory =
      some ⟨"slab1", "Standard", 100, some true, some [⟨7, "upload", "License"⟩]⟩ ∧
    (⟨7, "upload", "License"⟩ : AdditionalField) ∈
      (some [(⟨7, "upload", "License"⟩ : AdditionalField)] :
        Option (List AdditionalField)).getD [] ∧
    c1WitnessBd.fileUploads.lookup (toString (7 : Nat)) = none ∧
    (∀ v, c1WitnessBd.additionalAnswers.lookup (toString (7 : Nat)) = some v →
      truthyVal v = false) ∧
    ((∃ msg, part005Submit c1WitnessBd = .abortedFile msg) ∧
      (∃ r, part004Submit c1WitnessBd = some r) ∧
      (∀ a ∈ c1WitnessBd.dynamicFormAnswers,
        isFileKind a.type a.inputTypes = true →
        c1WitnessBd.dynamicFormFileUploads.lookup a.id = none →
        (∀ u, a.value = .str u → u = "") →
        (part004DynAnswer c1WitnessBd.dynamicFormFileUploads a).1.value = none ∧
        (part004DynAnswer c1WitnessBd.dynamicFormFileUploads a).1.fileUrl = none ∧
        (part004DynAnswer c1WitnessBd.dynamicFormFileUploads a).2 = none)) :=
  ⟨rfl, rfl, by decide, rfl, by simp [c1WitnessBd, initialBasicDetails],
    c1_missing_file_gate c1WitnessBd
      ⟨"slab1", "Standard", 100, some true, some [⟨7, "upload", "License"⟩]⟩
      ⟨7, "upload", "License"⟩ rfl rfl rfl (by decide) rfl rfl
      (by simp [c1WitnessBd, initialBasicDetails])⟩

/-- The extension branch accepts exactly what `codeFileValid`'s extension
factor describes. -/
theorem validateExtension_valid (file : FileHandle) (ae : Option String) :
    (validateExtension file ae).valid =
      (match ae with
        | none => true
        | some s =>
          decide (s = "") ||
          (decide (jsToLower (jsSplitPop file.name) ≠ "") &&
            ((jsSplitOnChar ',' s).map
              (fun x => jsReplaceDotOnce (jsToLower (jsTrim x)))).contains
              (jsToLower (jsSplitPop file.name)))) := by
  cases ae with
  | none => rfl
  | some s =>
    by_cases hs : s = ""
    · simp [validateExtension, hs]
    · simp only [validateExtension, hs, if_false]
      by_cases he : jsToLower (jsSplitPop file.name) = ""
      · have hcond : jsToLower (jsSplitPop file.name) = "" ∨
            ¬((jsSplitOnChar ',' s).map
              (fun e => jsReplaceDotOnce (jsToLower (jsTrim e)))).contains
              (jsToLower (jsSplitPop file.name)) = true := Or.inl he
        rw [if_pos hcond]
        simp [hs, he]
      · by_cases hc : ((jsSplitOnChar ',' s).map
            (fun e => jsReplaceDotOnce (jsToLower (jsTrim e)))).contains
            (jsToLower (jsSplitPop file.name)) = true
        · have hcond : ¬(jsToLower (jsSplitPop file.name) = "" ∨
              ¬((jsSplitOnChar ',' s).map
                (fun e => jsReplaceDotOnce (jsToLower (jsTrim e)))).contains
                (jsToLower (jsSplitPop file.name)) = true) := by
            intro h
            rcases h with h | h
            · exact he h
            · exact h hc
          rw [if_neg hcond]
          rw [hc]
          simp [hs, he]
        · have hcond : jsToLower (jsSplitPop file.name) = "" ∨
              ¬((jsSplitOnChar ',' s).map
                (fun e => jsReplaceDotOnce (jsToLower (jsTrim e)))).contains
                (jsToLower (jsSplitPop file.name)) = true := Or.inr hc
          rw [if_pos hcond]
          have hc' : ((jsSplitOnChar ',' s).map
              (fun e => jsReplaceDotOnce (jsToLower (jsTrim e)))).contains
              (jsToLower (jsSplitPop file.name)) = false := by
            cases hvc : ((jsSplitOnChar ',' s).map
                (fun e => jsReplaceDotOnce (jsToLower (jsTrim e)))).contains
                (jsToLower (jsSplitPop file.name)) with
            | true => exact absurd hvc hc
            | false => rfl
          rw [hc']
          simp [hs, he]

/-- The extension branch attaches an error message whenever it rejects. -/
theorem validateExtension_error (file : FileHandle) (ae : Option String)
    (h : (validateExtension file ae).valid = false) :
    (validateExtension file ae).error.isSome = true := by
  cases ae with
  | none => simp [validateExtension] at h
  | some s =>
    by_cases hs : s = ""
    · simp [validateExtension, hs] at h
    · simp only [validateExtension, hs, if_false] at h ⊢
      by_cases hcond : (jsToLower (jsSplitPop file.name) = "" ∨
          ¬((jsSplitOnChar ',' s).map
            (fun e => jsReplaceDotOnce (jsToLower (jsTrim e)))).contains
            (jsToLower (jsSplitPop file.name)) = true)
      · rw [if_pos hcond]
        rfl
      · rw [if_neg hcond] at h
        simp at h

/-- C10 counterexample: for the file named `"x."` with allowed list `"."`,
the claim's predicate holds — the substring after the final dot is `""`,
whose lowercase form occurs in the dot-stripped list `[""]` — yet the code
treats the empty extension as falsy and rejects the file. -/
theorem c10_counterexample :
    claimedFileValid ⟨"x.", 0⟩ (some ".") none = true ∧
    (validateFileUpload ⟨"x.", 0⟩ (some ".") none).valid = false :=
  ⟨by decide, by decide⟩

/-- C10 as amended: `valid = true` exactly when the size passes (absent or
zero `maxSizeMB` passes everything) and the extension passes, where the
extension is the last dot-separated component of the name (the whole name
when it has no dot), is required to be nonempty, and `allowedExtensions`
is also skipped when it is the empty string; every rejection carries an
error message, and the size check takes precedence. -/
theorem c10_validateFileUpload (file : FileHandle)
    (allowedExtensions : Option String) (maxSizeMB : Option Nat) :
    ((validateFileUpload file allowedExtensions maxSizeMB).valid = true ↔
      codeFileValid file allowedExtensions maxSizeMB = true) ∧
    ((validateFileUpload file allowedExtensions maxSizeMB).valid = false →
      (validateFileUpload file allowedExtensions maxSizeMB).error.isSome = true) ∧
    (∀ m, maxSizeMB = some m → m ≠ 0 → m * 1024 * 1024 < file.size →
      validateFileUpload file allowedExtensions maxSizeMB =
        ⟨false, some ("File size exceeds " ++ toString m ++ "MB limit")⟩) := by
  refine ⟨?_, ?_, ?_⟩
  · cases maxSizeMB with
    | none =>
      simp only [validateFileUpload, codeFileValid]
      rw [← validateExtension_valid file allowedExtensions]
      cases allowedExtensions <;> simp [validateExtension_valid]
    | some m =>
      by_cases hm : m = 0
      · subst hm
        simp only [validateFileUpload, codeFileValid, if_true]
        rw [← validateExtension_valid file allowedExtensions]
        simp [validateExtension_valid]
      · by_cases hsize : file.size > m * 1024 * 1024
        · simp [validateFileUpload, codeFileValid, hm, hsize, Nat.not_le_of_lt]
        · simp only [validateFileUpload, codeFileValid, hm, hsize, if_false]
          rw [← validateExtension_valid file allowedExtensions]
          simp [validateExtension_valid, Nat.le_of_not_lt, hsize,
            Nat.not_lt.mp hsize]
  · intro h
    cases maxSizeMB with
    | none => exact validateExtension_error file allowedExtensions h
    | some m =>
      by_cases hm : m = 0
      · subst hm
        simp only [validateFileUpload, if_true] at h ⊢
        exact validateExtension_error file allowedExtensions h
      · by_cases hsize : file.size > m * 1024 * 1024
        · simp [validateFileUpload, hm, hsize]
        · simp only [validateFileUpload, hm, hsize, if_false] at h ⊢
          exact validateExtension_error file allowedExtensions h
  · intro m hm hm0 hsz
    subst hm
    simp [validateFileUpload, hm0, hsz]

/-- Witness for C10's amended theorem at a concrete oversized file. -/
theorem c10_validateFileUpload_witness :
    (((validateFileUpload ⟨"cv.pdf", 3000000⟩ (some "pdf") (some 2)).valid = true ↔
      codeFileValid ⟨"cv.pdf", 3000000⟩ (some "pdf") (some 2) = true) ∧
    ((validateFileUpload ⟨"cv.pdf", 3000000⟩ (some "pdf") (some 2)).valid = false →
      (validateFileUpload ⟨"cv.pdf", 3000000⟩ (some "pdf") (some 2)).error.isSome = true) ∧
    (∀ m, (some 2 : Option Nat) = some m → m ≠ 0 →
      m * 1024 * 1024 < (3000000 : Nat) →
      validateFileUpload ⟨"cv.pdf", 3000000⟩ (some "pdf") (some 2) =
        ⟨false, some ("File size exceeds " ++ toString m ++ "MB limit")⟩)) :=
  c10_validateFileUpload ⟨"cv.pdf", 3000000⟩ (some "pdf") (some 2)
